import Mathlib

/-!
Verification development for the garden interchain analysis pipeline.

The program has three moving parts that the claims talk about:

* a sync endpoint (`getOrders` in the backend): validates the request body,
  then, inside one database transaction, clears the `order_analysis` table,
  queries the stage store for orders whose two swap legs are both completed,
  and inserts one all-null-milestone row per selected order; on any failure
  the transaction is rolled back and a 500 response is returned;
* a backfill script (`updateTimestamps` with `getTimestampForBlock` and
  `formatTimestampToIST`): selects rows whose `user_init` or `cobi_init`
  column is still null, resolves the corresponding block numbers to epoch
  timestamps through per-chain RPC adapters that absorb errors into null,
  and patches the columns with `COALESCE(existing, new)`;
* an aggregate duration computation consumed by the frontend; its backend
  code is not in the repository snapshot, so it is modelled from the spec.

Database tables are modelled as Lean lists of structures, SQL null as
`Option`, and the JavaScript truthiness tests of the source as explicit
`jsTruthy` helpers.  The network is an oracle parameter
`rpc : String → Nat → Except String (Option Nat)`: an `Except.error` models a
thrown network or decoding error, `Except.ok none` a response without a
timestamp field, and `Except.ok (some t)` a block with timestamp `t`.
-/

namespace Garden

/-- JavaScript truthiness of an optional string: `null`, `undefined` and the
empty string are falsy. -/
def jsTruthyStr : Option String → Bool
  | none => false
  | some s => s ≠ ""

/-- JavaScript truthiness of an optional number: `null`, `undefined` and `0`
are falsy. -/
def jsTruthyNat : Option Nat → Bool
  | none => false
  | some n => n ≠ 0

/-- SQL COALESCE on two nullable values: the first non-null argument. -/
def coalesce : Option α → Option α → Option α
  | some x, _ => some x
  | none, b => b

/-! ### formatTimestampToIST

The source converts epoch seconds to a civil timestamp string at the fixed
offset +05:30: it adds the offset in milliseconds, renders the shifted
instant as an ISO string, replaces the T separator with a space, keeps the
first 23 characters (date, time, milliseconds) and appends "+05:30".
The Gregorian conversion below is the standard days-to-civil-date algorithm
that the JavaScript Date rendering performs. -/

/-- Zero-pad the decimal rendering of `n` to at least `w` digits. -/
def padNum (w n : Nat) : String :=
  let s := toString n
  if s.length < w then String.mk (List.replicate (w - s.length) '0') ++ s else s

/-- Convert a count of days since 1970-01-01 to a Gregorian (year, month,
day) triple. -/
def civilFromDays (z : Nat) : Nat × Nat × Nat :=
  let z4 := z + 719468
  let era := z4 / 146097
  let doe := z4 % 146097
  let yoe := (doe - doe / 1460 + doe / 36524 - doe / 146097) / 365
  let y := yoe + era * 400
  let doy := doe - (365 * yoe + yoe / 4 - yoe / 100)
  let mp := (5 * doy + 2) / 153
  let d := doy - (153 * mp + 2) / 5 + 1
  let m := if mp < 10 then mp + 3 else mp - 9
  (if m ≤ 2 then y + 1 else y, m, d)

/-- Render epoch seconds as the civil timestamp string at the fixed +05:30
offset, in the shape YYYY-MM-DD HH:MM:SS.mmm+05:30. -/
def formatTimestampToIST (timestampSeconds : Nat) : String :=
  let istMillis := timestampSeconds * 1000 + 19800000
  let days := istMillis / 86400000
  let msOfDay := istMillis % 86400000
  let ymd := civilFromDays days
  let hh := msOfDay / 3600000
  let mm := msOfDay % 3600000 / 60000
  let ss := msOfDay % 60000 / 1000
  let ms := msOfDay % 1000
  padNum 4 ymd.1 ++ "-" ++ padNum 2 ymd.2.1 ++ "-" ++ padNum 2 ymd.2.2 ++ " " ++
    padNum 2 hh ++ ":" ++ padNum 2 mm ++ ":" ++ padNum 2 ss ++ "." ++ padNum 3 ms ++ "+05:30"

/-! ### getTimestampForBlock

The source guards on a falsy block number first, then dispatches on the
chain name: three chains share the indexing-SDK client, three more each use
a raw RPC transport with their own encoding, and any other chain is
unsupported.  Every supported branch makes exactly one network attempt and
catches its own errors, returning null on a thrown error, on a missing
block, and on a falsy (zero) timestamp field.  The wire differences between
the branches live entirely in the network layer, which the embedding
abstracts as the `rpc` oracle; the result is paired with the number of
network attempts made. -/

/-- The chains served by the shared indexing-SDK client. -/
def alchemyChains : List String := ["arbitrum_sepolia", "ethereum_sepolia", "base_sepolia"]

/-- Outcome of one RPC attempt for (chain, block): absorb a thrown error
into null, and a missing block or falsy timestamp into null. -/
def rpcAttempt (rpc : String → Nat → Except String (Option Nat))
    (chain : String) (bn : Nat) : Option Nat :=
  match rpc chain bn with
  | .ok r => if jsTruthyNat r then r else none
  | .error _ => none

/-- Resolve a block number on a chain to its epoch-seconds timestamp, or
null.  The second component counts network attempts. -/
def getTimestampForBlock (rpc : String → Nat → Except String (Option Nat))
    (chain : String) (blockNumber : Option Nat) : Option Nat × Nat :=
  if !jsTruthyNat blockNumber then (none, 0)
  else
    let bn := blockNumber.getD 0
    if alchemyChains.contains chain then (rpcAttempt rpc chain bn, 1)
    else if chain = "starknet_sepolia" then (rpcAttempt rpc chain bn, 1)
    else if chain = "monad_testnet" then (rpcAttempt rpc chain bn, 1)
    else if chain = "hyperliquid_testnet" then (rpcAttempt rpc chain bn, 1)
    else (none, 0)

/-! ### updateTimestamps -/

/-- A row of `order_analysis` as read and written by the backfill script:
its chain pair, the two init block numbers, and the two init timestamp
columns it may patch. -/
structure OARow where
  id : Nat
  source_chain : String
  destination_chain : String
  user_init_block_number : Option Nat
  cobi_init_block_number : Option Nat
  user_init : Option String
  cobi_init : Option String
deriving DecidableEq, Repr

/-- The guarded resolution block the loop body repeats for each side: if the
block number is truthy, resolve it, and format the result as the IST string
when the resolved timestamp is truthy; otherwise leave the side null. -/
def resolveInit (rpc : String → Nat → Except String (Option Nat))
    (chain : String) (blk : Option Nat) : Option String :=
  if jsTruthyNat blk then
    let ts := (getTimestampForBlock rpc chain blk).1
    if jsTruthyNat ts then some (formatTimestampToIST (ts.getD 0)) else none
  else none

/-- One iteration of the backfill loop: resolve each init timestamp whose
block number is truthy (user side against the source chain, counterparty
side against the destination chain), and, when at least one side produced a
value, patch the row with COALESCE(existing, new) per column. -/
def backfillStep (rpc : String → Nat → Except String (Option Nat)) (row : OARow) : OARow :=
  let userInitTimestamp := resolveInit rpc row.source_chain row.user_init_block_number
  let cobiInitTimestamp := resolveInit rpc row.destination_chain row.cobi_init_block_number
  if userInitTimestamp.isSome || cobiInitTimestamp.isSome then
    { row with
      user_init := coalesce row.user_init userInitTimestamp
      cobi_init := coalesce row.cobi_init cobiInitTimestamp }
  else row

/-- The effect of the backfill job on one table row: rows whose `user_init`
or `cobi_init` is null are selected (the WHERE clause of the job) and
processed by `backfillStep`; all other rows are untouched. -/
def backfillRow (rpc : String → Nat → Except String (Option Nat)) (row : OARow) : OARow :=
  if row.user_init.isNone || row.cobi_init.isNone then backfillStep rpc row else row

/-- The whole backfill job, as its effect on the table.  Row ids are the
update key and are assumed unique, so the per-id UPDATE is a pointwise map
over the table. -/
def updateTimestamps (rpc : String → Nat → Except String (Option Nat))
    (db : List OARow) : List OARow :=
  db.map (backfillRow rpc)

/-! ### The stage store and the selection query

Timestamps that the backend only ever compares (never does arithmetic on)
are modelled as ISO-format strings ordered lexicographically, which agrees
with the timestamptz order the database applies. -/

/-- Lexicographic string comparison modelling the order the database applies
to timestamp values. -/
def strLe (a b : String) : Bool :=
  match compare a b with
  | .gt => false
  | _ => true

/-- A row of the stage `swaps` table; null transaction hashes are `none`.
The block-number and last-updated columns exist in the stage schema but are
not read by the sync SELECT. -/
structure Swap where
  swap_id : String
  redeem_tx_hash : Option String
  refund_tx_hash : Option String
  initiate_block_number : Option Nat
  redeem_block_number : Option Nat
  refund_block_number : Option Nat
  updated_at : String
deriving DecidableEq, Repr

/-- A row of the stage `create_orders` table. -/
structure CreateOrder where
  create_id : String
  source_chain : String
  destination_chain : String
  created_at : String
deriving DecidableEq, Repr

/-- A row of the stage `matched_orders` table. -/
structure MatchedOrder where
  create_order_id : String
  source_swap_id : String
  destination_swap_id : String
deriving DecidableEq, Repr

/-- The stage database read by the sync endpoint. -/
structure StageDB where
  create_orders : List CreateOrder
  matched_orders : List MatchedOrder
  swaps : List Swap
deriving Repr

/-- A row of the SELECT DISTINCT result the sync endpoint copies. -/
structure StageRow where
  create_order_id : String
  source_swap_id : String
  destination_swap_id : String
  created_at : String
deriving DecidableEq, Repr

/-- The completion test applied to each swap leg in the WHERE clause: the
redeem hash or the refund hash is non-null. -/
def legCompleted (s : Swap) : Bool :=
  s.redeem_tx_hash.isSome || s.refund_tx_hash.isSome

/-- The stage selection query: join `create_orders` with `matched_orders`
and both swap legs, keep rows matching the requested chain pair whose
creation time lies in the window and whose two legs are both completed,
and deduplicate (SELECT DISTINCT). -/
def stageQuery (db : StageDB) (sourceChain destinationChain startTime endTime : String) :
    List StageRow :=
  (db.create_orders.flatMap fun co =>
    (db.matched_orders.filter fun mo => mo.create_order_id = co.create_id).flatMap fun mo =>
      (db.swaps.filter fun s1 => s1.swap_id = mo.source_swap_id).flatMap fun s1 =>
        (db.swaps.filter fun s2 => s2.swap_id = mo.destination_swap_id).filterMap fun s2 =>
          if co.source_chain = sourceChain ∧ co.destination_chain = destinationChain ∧
              strLe startTime co.created_at ∧ strLe co.created_at endTime ∧
              legCompleted s1 ∧ legCompleted s2 then
            some ⟨mo.create_order_id, mo.source_swap_id, mo.destination_swap_id, co.created_at⟩
          else none).dedup

/-! ### The analysis store and the transactional sync endpoint -/

/-- A row of `order_analysis` as created by the sync endpoint (the SERIAL
id column and its sequence are not modelled; milestone columns are TEXT). -/
structure OrderAnalysisRow where
  create_order_id : String
  source_swap_id : String
  destination_swap_id : String
  created_at : String
  user_init : Option String
  cobi_init : Option String
  user_redeem : Option String
  cobi_redeem : Option String
  user_refund : Option String
  cobi_refund : Option String
deriving DecidableEq, Repr

/-- The row the INSERT statement writes for one selected order: identity
fields copied, every milestone column NULL. -/
def insertRow (r : StageRow) : OrderAnalysisRow :=
  ⟨r.create_order_id, r.source_swap_id, r.destination_swap_id, r.created_at,
    none, none, none, none, none, none⟩

/-- A write operation executed against `order_analysis` inside the sync
transaction. -/
inductive TxOp where
  | deleteAll : TxOp
  | insert : OrderAnalysisRow → TxOp
deriving DecidableEq, Repr

/-- Effect of one write on the table contents. -/
def applyOp : List OrderAnalysisRow → TxOp → List OrderAnalysisRow
  | _, .deleteAll => []
  | s, .insert r => s ++ [r]

/-- A connection to the analysis database: the committed table contents,
and, while a transaction is open, the uncommitted working contents. -/
structure PgConn where
  committed : List OrderAnalysisRow
  pending : Option (List OrderAnalysisRow)
deriving DecidableEq, Repr

/-- BEGIN: open a transaction whose working state starts at the committed
contents. -/
def pgBegin (c : PgConn) : PgConn :=
  { c with pending := some c.committed }

/-- Execute a write: inside a transaction it alters only the working state;
outside, it autocommits. -/
def pgExec (c : PgConn) (op : TxOp) : PgConn :=
  match c.pending with
  | some s => { c with pending := some (applyOp s op) }
  | none => { c with committed := applyOp c.committed op }

/-- COMMIT: publish the working state. -/
def pgCommit (c : PgConn) : PgConn :=
  match c.pending with
  | some s => ⟨s, none⟩
  | none => c

/-- ROLLBACK: discard the working state. -/
def pgRollback (c : PgConn) : PgConn :=
  { c with pending := none }

/-- The JSON request body of POST /api/orders; absent fields are `none`. -/
structure OrderRequestBody where
  source_chain : Option String
  destination_chain : Option String
  start_time : Option String
  end_time : Option String
deriving Repr

/-- Observable outcome of one call to the handler: the connection (with the
committed table contents), the HTTP status and body, the number of database
commands issued to either pool, and the rows passed to INSERT statements
during the call. -/
structure GetOrdersResult where
  conn : PgConn
  status : Nat
  body : String
  queries : Nat
  inserts : List OrderAnalysisRow
deriving Repr

/-- The success path of the handler body: BEGIN, DELETE FROM order_analysis,
ALTER SEQUENCE (counted, no modelled effect), the stage SELECT, one INSERT
per selected row, COMMIT, and the 200 response reporting the row count. -/
def syncSuccess (conn : PgConn) (rows : List StageRow) : GetOrdersResult :=
  let ins := rows.map insertRow
  let c2 := ins.foldl (fun c r => pgExec c (.insert r)) (pgExec (pgBegin conn) .deleteAll)
  ⟨pgCommit c2, 200,
    "Successfully stored " ++ toString rows.length ++ " records in the database",
    4 + ins.length + 1, ins⟩

/-- The POST /api/orders handler.  Validation rejects any falsy field with a
400 response before touching either database.  Otherwise the transactional
copy runs; `failAt = some k` with `k` below the selected row count models the
k-th INSERT throwing, after which the handler rolls the transaction back and
answers 500.  `failAt = none` (or an index past the inserts) is the success
path. -/
def getOrders (stage : StageDB) (req : OrderRequestBody) (conn : PgConn)
    (failAt : Option Nat) : GetOrdersResult :=
  if !jsTruthyStr req.source_chain || !jsTruthyStr req.destination_chain ||
      !jsTruthyStr req.start_time || !jsTruthyStr req.end_time then
    ⟨conn, 400, "All fields are required", 0, []⟩
  else
    let rows := stageQuery stage (req.source_chain.getD "") (req.destination_chain.getD "")
      (req.start_time.getD "") (req.end_time.getD "")
    match failAt with
    | some k =>
      if k < rows.length then
        let done := (rows.take k).map insertRow
        let c2 := done.foldl (fun c r => pgExec c (.insert r)) (pgExec (pgBegin conn) .deleteAll)
        ⟨pgRollback c2, 500, "Database operation failed", 4 + k + 1, done⟩
      else syncSuccess conn rows
    | none => syncSuccess conn rows

/-! ### The aggregate duration computation -/

/-- Modelled from the spec: the Analysis Query Service duration computation
(computeAverages, spec section 4.4) is not under src in this snapshot; only
its caller, the frontend App component, is.  Milestone timestamps are epoch
seconds, null milestones are `none`. -/
structure QueryRecord where
  created_at : Int
  user_init : Option Int
  cobi_init : Option Int
  user_redeem : Option Int
  cobi_redeem : Option Int
  user_refund : Option Int
  cobi_refund : Option Int
deriving DecidableEq, Repr

/-- Modelled from the spec: an elapsed duration is clamped to be
non-negative, guarding against clock skew. -/
def clampDuration (endT startT : Int) : Int :=
  max (endT - startT) 0

/-- Modelled from the spec: the duration of an ordered milestone pair is
computed only when both endpoints are non-null; otherwise the pair
contributes nothing. -/
def pairDuration : Option Int → Option Int → Option Int
  | some e, some s => some (clampDuration e s)
  | _, _ => none

/-- Modelled from the spec: the user-init duration of a record, measured
from its creation time. -/
def userInitDuration (r : QueryRecord) : Option Int :=
  pairDuration r.user_init (some r.created_at)

/-- Modelled from the spec: per-column null-aware average — null entries are
excluded from the average of that column, not defaulted. -/
def avgDuration (xs : List (Option Int)) : Option ℚ :=
  let vs := xs.filterMap id
  if vs.length = 0 then none else some ((vs.sum : ℚ) / (vs.length : ℚ))

/-! ### Helper lemmas -/

theorem coalesce_some (v : α) (b : Option α) : coalesce (some v) b = some v := rfl

theorem coalesce_none (b : Option α) : coalesce none b = b := rfl

theorem coalesce_coalesce (a b : Option α) : coalesce (coalesce a b) b = coalesce a b := by
  cases a <;> cases b <;> rfl

theorem insertRow_injective : Function.Injective insertRow := by
  intro a b h
  cases a; cases b
  simp only [insertRow, OrderAnalysisRow.mk.injEq] at h
  simp [StageRow.mk.injEq, h.1, h.2.1, h.2.2.1, h.2.2.2.1]

theorem stageQuery_nodup (db : StageDB) (sc dc st et : String) :
    (stageQuery db sc dc st et).Nodup :=
  List.nodup_dedup _

theorem foldl_pgExec_insert (l : List OrderAnalysisRow) (c : PgConn)
    (s : List OrderAnalysisRow) (h : c.pending = some s) :
    l.foldl (fun c r => pgExec c (.insert r)) c = ⟨c.committed, some (s ++ l)⟩ := by
  induction l generalizing c s with
  | nil => cases c; simp_all
  | cons r t ih =>
    rw [List.foldl_cons]
    have hstep : pgExec c (.insert r) = ⟨c.committed, some (s ++ [r])⟩ := by
      simp [pgExec, h, applyOp]
    rw [hstep, ih ⟨c.committed, some (s ++ [r])⟩ (s ++ [r]) rfl]
    simp

theorem syncSuccess_eq (conn : PgConn) (rows : List StageRow) :
    syncSuccess conn rows =
      ⟨⟨rows.map insertRow, none⟩, 200,
        "Successfully stored " ++ toString rows.length ++ " records in the database",
        4 + rows.length + 1, rows.map insertRow⟩ := by
  unfold syncSuccess
  dsimp only
  have hb : pgExec (pgBegin conn) .deleteAll = ⟨conn.committed, some []⟩ := by
    simp [pgBegin, pgExec, applyOp]
  rw [hb, foldl_pgExec_insert _ _ [] rfl]
  simp [pgCommit]

theorem getOrders_valid_none (stage : StageDB) (req : OrderRequestBody) (conn : PgConn)
    (h1 : jsTruthyStr req.source_chain = true) (h2 : jsTruthyStr req.destination_chain = true)
    (h3 : jsTruthyStr req.start_time = true) (h4 : jsTruthyStr req.end_time = true) :
    getOrders stage req conn none =
      syncSuccess conn (stageQuery stage (req.source_chain.getD "")
        (req.destination_chain.getD "") (req.start_time.getD "") (req.end_time.getD "")) := by
  unfold getOrders
  rw [h1, h2, h3, h4]
  rfl

theorem getOrders_failAt (stage : StageDB) (req : OrderRequestBody) (conn : PgConn) (k : Nat)
    (h1 : jsTruthyStr req.source_chain = true) (h2 : jsTruthyStr req.destination_chain = true)
    (h3 : jsTruthyStr req.start_time = true) (h4 : jsTruthyStr req.end_time = true)
    (hk : k < (stageQuery stage (req.source_chain.getD "") (req.destination_chain.getD "")
      (req.start_time.getD "") (req.end_time.getD "")).length) :
    getOrders stage req conn (some k) =
      ⟨⟨conn.committed, none⟩, 500, "Database operation failed", 4 + k + 1,
        ((stageQuery stage (req.source_chain.getD "") (req.destination_chain.getD "")
          (req.start_time.getD "") (req.end_time.getD "")).take k).map insertRow⟩ := by
  unfold getOrders
  rw [h1, h2, h3, h4]
  simp only [Bool.not_true, Bool.false_or, Bool.or_self, Bool.false_eq_true, if_false]
  rw [if_pos hk]
  have hb : pgExec (pgBegin conn) .deleteAll = ⟨conn.committed, some []⟩ := by
    simp [pgBegin, pgExec, applyOp]
  rw [hb, foldl_pgExec_insert _ _ [] rfl]
  rfl

theorem getOrders_inserts_shape (stage : StageDB) (req : OrderRequestBody) (conn : PgConn)
    (failAt : Option Nat) :
    ∃ l : List StageRow, (getOrders stage req conn failAt).inserts = l.map insertRow := by
  by_cases hv : (!jsTruthyStr req.source_chain || !jsTruthyStr req.destination_chain ||
      !jsTruthyStr req.start_time || !jsTruthyStr req.end_time) = true
  · exact ⟨[], by unfold getOrders; rw [if_pos hv]; rfl⟩
  · have h1 : jsTruthyStr req.source_chain = true := by
      revert hv; cases jsTruthyStr req.source_chain <;> simp
    have h2 : jsTruthyStr req.destination_chain = true := by
      revert hv; cases jsTruthyStr req.destination_chain <;> simp
    have h3 : jsTruthyStr req.start_time = true := by
      revert hv; cases jsTruthyStr req.start_time <;> simp
    have h4 : jsTruthyStr req.end_time = true := by
      revert hv; cases jsTruthyStr req.end_time <;> simp
    cases failAt with
    | none => exact ⟨_, by rw [getOrders_valid_none stage req conn h1 h2 h3 h4, syncSuccess_eq]⟩
    | some k =>
      by_cases hk : k < (stageQuery stage (req.source_chain.getD "")
          (req.destination_chain.getD "") (req.start_time.getD "") (req.end_time.getD "")).length
      · exact ⟨_, by rw [getOrders_failAt stage req conn k h1 h2 h3 h4 hk]⟩
      · refine ⟨stageQuery stage (req.source_chain.getD "") (req.destination_chain.getD "")
          (req.start_time.getD "") (req.end_time.getD ""), ?_⟩
        unfold getOrders
        rw [if_neg hv]
        dsimp only
        rw [if_neg hk, syncSuccess_eq]

/-- The columns of an analysis row that the backfill job never writes. -/
def oaIdentity (r : OARow) : Nat × String × String × Option Nat × Option Nat :=
  (r.id, r.source_chain, r.destination_chain, r.user_init_block_number, r.cobi_init_block_number)

theorem backfillStep_identity (rpc : String → Nat → Except String (Option Nat)) (row : OARow) :
    oaIdentity (backfillStep rpc row) = oaIdentity row := by
  rw [backfillStep]
  split <;> rfl

theorem backfillRow_identity (rpc : String → Nat → Except String (Option Nat)) (row : OARow) :
    oaIdentity (backfillRow rpc row) = oaIdentity row := by
  rw [backfillRow]
  split
  · exact backfillStep_identity rpc row
  · rfl

theorem backfillRow_idem (rpc : String → Nat → Except String (Option Nat)) (row : OARow) :
    backfillRow rpc (backfillRow rpc row) = backfillRow rpc row := by
  obtain ⟨i, sc, dc, ub, cb, ui, ci⟩ := row
  simp only [backfillRow, backfillStep]
  cases ui <;> cases ci <;>
    cases huT : resolveInit rpc sc ub <;> cases hcT : resolveInit rpc dc cb <;>
      simp [huT, hcT, coalesce]

theorem getTimestampForBlock_err (rpc : String → Nat → Except String (Option Nat))
    (chain : String) (bn : Nat) (e : String) (h : rpc chain bn = Except.error e) :
    (getTimestampForBlock rpc chain (some bn)).1 = none := by
  unfold getTimestampForBlock
  split_ifs <;> simp [rpcAttempt, h]

theorem getTimestampForBlock_ok (rpc : String → Nat → Except String (Option Nat))
    (chain : String) (bn t : Nat) (hbn : bn ≠ 0)
    (hsup : alchemyChains.contains chain = true)
    (hok : rpc chain bn = Except.ok (some t)) (htne : t ≠ 0) :
    (getTimestampForBlock rpc chain (some bn)).1 = some t := by
  unfold getTimestampForBlock
  rw [if_neg (by simp [jsTruthyNat, hbn])]
  dsimp only
  rw [if_pos hsup]
  simp [rpcAttempt, hok, jsTruthyNat, htne]

theorem resolveInit_none_of_ts_none (rpc : String → Nat → Except String (Option Nat))
    (chain : String) (blk : Option Nat)
    (h : (getTimestampForBlock rpc chain blk).1 = none) :
    resolveInit rpc chain blk = none := by
  simp only [resolveInit]
  split
  · simp [h, jsTruthyNat]
  · rfl

theorem resolveInit_some_of_ts (rpc : String → Nat → Except String (Option Nat))
    (chain : String) (blk : Option Nat) (t : Nat) (hblk : jsTruthyNat blk = true)
    (h : (getTimestampForBlock rpc chain blk).1 = some t) (htne : t ≠ 0) :
    resolveInit rpc chain blk = some (formatTimestampToIST t) := by
  simp only [resolveInit]
  rw [if_pos hblk]
  simp [h, jsTruthyNat, htne]

theorem backfillStep_user_some (rpc : String → Nat → Except String (Option Nat))
    (row : OARow) (v : String) (h : row.user_init = some v) :
    (backfillStep rpc row).user_init = some v := by
  rw [backfillStep]
  split
  · simp [h, coalesce_some]
  · exact h

theorem backfillStep_cobi_some (rpc : String → Nat → Except String (Option Nat))
    (row : OARow) (v : String) (h : row.cobi_init = some v) :
    (backfillStep rpc row).cobi_init = some v := by
  rw [backfillStep]
  split
  · simp [h, coalesce_some]
  · exact h

theorem backfillRow_user_some (rpc : String → Nat → Except String (Option Nat))
    (row : OARow) (v : String) (h : row.user_init = some v) :
    (backfillRow rpc row).user_init = some v := by
  rw [backfillRow]
  split
  · exact backfillStep_user_some rpc row v h
  · exact h

theorem backfillRow_cobi_some (rpc : String → Nat → Except String (Option Nat))
    (row : OARow) (v : String) (h : row.cobi_init = some v) :
    (backfillRow rpc row).cobi_init = some v := by
  rw [backfillRow]
  split
  · exact backfillStep_cobi_some rpc row v h
  · exact h

theorem backfillStep_resolved (rpc : String → Nat → Except String (Option Nat)) (row : OARow)
    (uT cT : Option String)
    (hu : resolveInit rpc row.source_chain row.user_init_block_number = uT)
    (hc : resolveInit rpc row.destination_chain row.cobi_init_block_number = cT)
    (hne : uT.isSome || cT.isSome) :
    backfillStep rpc row =
      { row with
        user_init := coalesce row.user_init uT
        cobi_init := coalesce row.cobi_init cT } := by
  simp only [backfillStep]
  rw [hu, hc, if_pos hne]

/-! ### Concrete fixtures used by witnesses and counterexamples -/

/-- A source leg completed by redeem. -/
def exS1 : Swap := ⟨"S1", some "0xredeem", none, some 90, some 100, none, "2024-01-01 00:05:00+00"⟩

/-- A destination leg completed by refund. -/
def exS2 : Swap := ⟨"S2", none, some "0xrefund", some 95, none, some 200, "2024-01-01 00:10:00+00"⟩

/-- The order joining the two legs. -/
def exCo : CreateOrder := ⟨"O1", "chainA", "chainB", "2024-01-01 00:00:00+00"⟩

/-- The matched-order row pairing the legs of exCo. -/
def exMo : MatchedOrder := ⟨"O1", "S1", "S2"⟩

/-- A stage store holding exactly the one qualifying order. -/
def exStage : StageDB := ⟨[exCo], [exMo], [exS1, exS2]⟩

/-- A well-formed request whose window covers the fixture order. -/
def exReq : OrderRequestBody :=
  ⟨some "chainA", some "chainB", some "2023-12-31 00:00:00+00", some "2024-01-02 00:00:00+00"⟩

/-- The row the selection query yields for the fixture order. -/
def exRow : StageRow := ⟨"O1", "S1", "S2", "2024-01-01 00:00:00+00"⟩

/-- An analysis record present before a sync run, not selected by it. -/
def exOld : OrderAnalysisRow :=
  ⟨"OLD", "SX", "SY", "2020-01-01 00:00:00+00", none, none, some "r", none, none, none⟩

/-- An RPC oracle whose chainA endpoint throws a network error while the
ethereum_sepolia endpoint resolves every block. -/
def exRpc : String → Nat → Except String (Option Nat) := fun chain _ =>
  if chain = "ethereum_sepolia" then Except.ok (some 1704067500) else Except.error "network"

/-- A backfill row whose user-side chain is the failing chainA and whose
counterparty-side chain is the resolving ethereum_sepolia. -/
def exBRow : OARow := ⟨1, "chainA", "ethereum_sepolia", some 100, some 200, none, none⟩

/-! ### Claim theorems -/

/-- C4: for a joined order row lying in the requested chain pair and time
window, the row is selected by the sync query iff both of its swap legs are
completed (a leg is completed iff its redeem or refund hash is non-null,
regardless of which), and a selected row appears exactly once in the
deduplicated selection, so it is synced exactly once. -/
theorem sync_completion_gating (db : StageDB) (sc dc st et : String)
    (co : CreateOrder) (mo : MatchedOrder) (s1 s2 : Swap)
    (hco : co ∈ db.create_orders) (hmo : mo ∈ db.matched_orders)
    (hmoc : mo.create_order_id = co.create_id)
    (hs1 : s1 ∈ db.swaps) (hs1id : s1.swap_id = mo.source_swap_id)
    (hs2 : s2 ∈ db.swaps) (hs2id : s2.swap_id = mo.destination_swap_id)
    (hu1 : ∀ s ∈ db.swaps, s.swap_id = mo.source_swap_id → s = s1)
    (hu2 : ∀ s ∈ db.swaps, s.swap_id = mo.destination_swap_id → s = s2)
    (hsc : co.source_chain = sc) (hdc : co.destination_chain = dc)
    (hst : strLe st co.created_at = true) (het : strLe co.created_at et = true) :
    ((⟨mo.create_order_id, mo.source_swap_id, mo.destination_swap_id, co.created_at⟩ : StageRow)
        ∈ stageQuery db sc dc st et ↔
      (legCompleted s1 = true ∧ legCompleted s2 = true)) ∧
    (legCompleted s1 = true → legCompleted s2 = true →
      (stageQuery db sc dc st et).count
        ⟨mo.create_order_id, mo.source_swap_id, mo.destination_swap_id, co.created_at⟩ = 1) := by
  have key : (⟨mo.create_order_id, mo.source_swap_id, mo.destination_swap_id, co.created_at⟩ :
      StageRow) ∈ stageQuery db sc dc st et ↔
      (legCompleted s1 = true ∧ legCompleted s2 = true) := by
    rw [stageQuery, List.mem_dedup]
    simp only [List.mem_flatMap, List.mem_filterMap, List.mem_filter, decide_eq_true_eq]
    constructor
    · rintro ⟨co', _, mo', ⟨_, _⟩, s1', ⟨hs1m', hs1id'⟩, s2', ⟨hs2m', hs2id'⟩, heq⟩
      rw [Option.ite_none_right_eq_some, Option.some.injEq] at heq
      obtain ⟨⟨_, _, _, _, hc1, hc2⟩, hrow⟩ := heq
      obtain ⟨hid1, hid2, hid3, _⟩ := StageRow.mk.injEq _ _ _ _ _ _ _ _ ▸ hrow
      have e1 : s1' = s1 := hu1 s1' hs1m' (by rw [hs1id', hid2])
      have e2 : s2' = s2 := hu2 s2' hs2m' (by rw [hs2id', hid3])
      exact ⟨e1 ▸ hc1, e2 ▸ hc2⟩
    · rintro ⟨h1, h2⟩
      refine ⟨co, hco, mo, ⟨hmo, hmoc⟩, s1, ⟨hs1, hs1id⟩, s2, ⟨hs2, hs2id⟩, ?_⟩
      rw [if_pos ⟨hsc, hdc, hst, het, h1, h2⟩]
  exact ⟨key, fun h1 h2 =>
    List.count_eq_one_of_mem (stageQuery_nodup db sc dc st et) (key.mpr ⟨h1, h2⟩)⟩

/-- C1 counterexample: with the fixture order already present in the
analysis store, a sync run over the unchanged source still issues an INSERT
for it — the insert is not conditional on absence, and the second run
inserts one row, not zero. -/
theorem sync_insert_unconditional_cx :
    insertRow exRow ∈ (⟨[insertRow exRow], none⟩ : PgConn).committed ∧
    (getOrders exStage exReq ⟨[insertRow exRow], none⟩ none).inserts = [insertRow exRow] ∧
    (getOrders exStage exReq ⟨[insertRow exRow], none⟩ none).inserts ≠ [] := by
  refine ⟨by decide, by decide, by decide⟩

/-- C1 amended: a sync run clears the analysis store and re-inserts every
qualifying order unconditionally, so a second run over an unchanged source
executes exactly the same inserts as the first (not zero); the run is
idempotent at the level of store state — the store contents after the
second run equal those after the first, and each selected order row occurs
exactly once in them. -/
theorem sync_state_idempotent_amended (stage : StageDB) (req : OrderRequestBody) (conn : PgConn)
    (h1 : jsTruthyStr req.source_chain = true) (h2 : jsTruthyStr req.destination_chain = true)
    (h3 : jsTruthyStr req.start_time = true) (h4 : jsTruthyStr req.end_time = true) :
    ((getOrders stage req (getOrders stage req conn none).conn none).inserts =
      (getOrders stage req conn none).inserts) ∧
    ((getOrders stage req (getOrders stage req conn none).conn none).conn =
      (getOrders stage req conn none).conn) ∧
    (∀ row ∈ (getOrders stage req conn none).conn.committed,
      (getOrders stage req conn none).conn.committed.count row = 1) := by
  rw [getOrders_valid_none stage req conn h1 h2 h3 h4,
    getOrders_valid_none stage req _ h1 h2 h3 h4, syncSuccess_eq, syncSuccess_eq]
  refine ⟨rfl, rfl, fun row hrow => ?_⟩
  exact List.count_eq_one_of_mem
    ((stageQuery_nodup stage _ _ _ _).map insertRow_injective) hrow

/-- Witness for C1 amended at the fixture store and request. -/
theorem sync_state_idempotent_amended_witness :
    (jsTruthyStr exReq.source_chain = true ∧ jsTruthyStr exReq.destination_chain = true ∧
      jsTruthyStr exReq.start_time = true ∧ jsTruthyStr exReq.end_time = true) ∧
    (((getOrders exStage exReq (getOrders exStage exReq ⟨[], none⟩ none).conn none).inserts =
        (getOrders exStage exReq ⟨[], none⟩ none).inserts) ∧
      ((getOrders exStage exReq (getOrders exStage exReq ⟨[], none⟩ none).conn none).conn =
        (getOrders exStage exReq ⟨[], none⟩ none).conn) ∧
      (∀ row ∈ (getOrders exStage exReq ⟨[], none⟩ none).conn.committed,
        (getOrders exStage exReq ⟨[], none⟩ none).conn.committed.count row = 1)) :=
  ⟨⟨by decide, by decide, by decide, by decide⟩,
    sync_state_idempotent_amended exStage exReq ⟨[], none⟩
      (by decide) (by decide) (by decide) (by decide)⟩

/-- C2 counterexample: a record present in the analysis store before a sync
run is gone afterwards — the run begins by deleting every existing row, and
a record not re-selected from the source does not survive. -/
theorem sync_deletes_records_cx :
    exOld ∈ (⟨[exOld], none⟩ : PgConn).committed ∧
    exOld ∉ (getOrders ⟨[], [], []⟩ exReq ⟨[exOld], none⟩ none).conn.committed := by
  refine ⟨by decide, by decide⟩

/-- C2 amended: the backfill job never deletes an analysis record (it
preserves the row count and every identity column of every row), but the
sync run is not deletion-free: it replaces the store contents wholesale
with the freshly selected rows, so records present beforehand survive only
if re-selected. -/
theorem record_retention_amended (rpc : String → Nat → Except String (Option Nat))
    (db : List OARow) (stage : StageDB) (req : OrderRequestBody) (conn : PgConn)
    (h1 : jsTruthyStr req.source_chain = true) (h2 : jsTruthyStr req.destination_chain = true)
    (h3 : jsTruthyStr req.start_time = true) (h4 : jsTruthyStr req.end_time = true) :
    ((updateTimestamps rpc db).length = db.length ∧
      (updateTimestamps rpc db).map oaIdentity = db.map oaIdentity) ∧
    (getOrders stage req conn none).conn.committed =
      (stageQuery stage (req.source_chain.getD "") (req.destination_chain.getD "")
        (req.start_time.getD "") (req.end_time.getD "")).map insertRow := by
  refine ⟨⟨by simp [updateTimestamps], ?_⟩, ?_⟩
  · rw [updateTimestamps, List.map_map]
    exact List.map_congr_left fun row _ => backfillRow_identity rpc row
  · rw [getOrders_valid_none stage req conn h1 h2 h3 h4, syncSuccess_eq]

/-- Witness for C2 amended at a one-row backfill table and the fixture sync
run. -/
theorem record_retention_amended_witness :
    (jsTruthyStr exReq.source_chain = true ∧ jsTruthyStr exReq.destination_chain = true ∧
      jsTruthyStr exReq.start_time = true ∧ jsTruthyStr exReq.end_time = true) ∧
    (((updateTimestamps (fun _ _ => Except.ok none)
          [⟨1, "chainA", "chainB", some 7, none, none, some "x"⟩]).length =
        ([⟨1, "chainA", "chainB", some 7, none, none, some "x"⟩] : List OARow).length ∧
      (updateTimestamps (fun _ _ => Except.ok none)
          [⟨1, "chainA", "chainB", some 7, none, none, some "x"⟩]).map oaIdentity =
        ([⟨1, "chainA", "chainB", some 7, none, none, some "x"⟩] : List OARow).map oaIdentity) ∧
    (getOrders exStage exReq ⟨[exOld], none⟩ none).conn.committed =
      (stageQuery exStage (exReq.source_chain.getD "") (exReq.destination_chain.getD "")
        (exReq.start_time.getD "") (exReq.end_time.getD "")).map insertRow) :=
  ⟨⟨by decide, by decide, by decide, by decide⟩,
    record_retention_amended (fun _ _ => Except.ok none)
      [⟨1, "chainA", "chainB", some 7, none, none, some "x"⟩] exStage exReq ⟨[exOld], none⟩
      (by decide) (by decide) (by decide) (by decide)⟩

/-- C3 counterexample: the fixture source leg has a redeem hash and the
destination leg a refund hash, yet the synced record stores null for the
corresponding redeem and refund timestamps instead of the leg last-updated
times — the insert writes NULL into every milestone column. -/
theorem sync_null_gating_cx :
    exS1.redeem_tx_hash.isSome = true ∧ exS2.refund_tx_hash.isSome = true ∧
    (getOrders exStage exReq ⟨[], none⟩ none).conn.committed.map
      (fun r => r.user_redeem) = [none] ∧
    (getOrders exStage exReq ⟨[], none⟩ none).conn.committed.map
      (fun r => r.cobi_refund) = [none] ∧
    (some exS1.updated_at : Option String) ≠ none ∧
    (some exS2.updated_at : Option String) ≠ none := by
  refine ⟨by decide, by decide, by decide, by decide, by decide, by decide⟩

/-- C3 amended: every record a sync run inserts has all six milestone
timestamp columns null — redeem and refund timestamps included, regardless
of which hashes the legs carry; neither the leg last-updated time nor any
block number is copied. -/
theorem sync_inserts_all_null_amended (stage : StageDB) (req : OrderRequestBody) (conn : PgConn)
    (failAt : Option Nat) (r : OrderAnalysisRow)
    (hr : r ∈ (getOrders stage req conn failAt).inserts) :
    r.user_init = none ∧ r.cobi_init = none ∧ r.user_redeem = none ∧ r.cobi_redeem = none ∧
    r.user_refund = none ∧ r.cobi_refund = none := by
  obtain ⟨l, hl⟩ := getOrders_inserts_shape stage req conn failAt
  rw [hl] at hr
  obtain ⟨s, _, hs⟩ := List.mem_map.mp hr
  rw [← hs]
  exact ⟨rfl, rfl, rfl, rfl, rfl, rfl⟩

/-- Witness for C3 amended at the fixture run, whose single insert is the
all-null record for the fixture order. -/
theorem sync_inserts_all_null_amended_witness :
    insertRow exRow ∈ (getOrders exStage exReq ⟨[], none⟩ none).inserts ∧
    ((insertRow exRow).user_init = none ∧ (insertRow exRow).cobi_init = none ∧
      (insertRow exRow).user_redeem = none ∧ (insertRow exRow).cobi_redeem = none ∧
      (insertRow exRow).user_refund = none ∧ (insertRow exRow).cobi_refund = none) :=
  ⟨by decide, sync_inserts_all_null_amended exStage exReq ⟨[], none⟩ none
    (insertRow exRow) (by decide)⟩

/-- C5: when any INSERT of a sync cycle fails, the whole transaction is
rolled back: the handler returns the 500 response and the connection is
left exactly in its pre-cycle state; re-invoking the handler afterwards
redoes the cycle as a whole, ending with the full selection stored. -/
theorem sync_atomic_rollback (stage : StageDB) (req : OrderRequestBody) (conn : PgConn) (k : Nat)
    (h1 : jsTruthyStr req.source_chain = true) (h2 : jsTruthyStr req.destination_chain = true)
    (h3 : jsTruthyStr req.start_time = true) (h4 : jsTruthyStr req.end_time = true)
    (hp : conn.pending = none)
    (hk : k < (stageQuery stage (req.source_chain.getD "") (req.destination_chain.getD "")
      (req.start_time.getD "") (req.end_time.getD "")).length) :
    ((getOrders stage req conn (some k)).conn = conn ∧
      (getOrders stage req conn (some k)).status = 500) ∧
    (getOrders stage req (getOrders stage req conn (some k)).conn none).conn.committed =
      (stageQuery stage (req.source_chain.getD "") (req.destination_chain.getD "")
        (req.start_time.getD "") (req.end_time.getD "")).map insertRow := by
  have hfail := getOrders_failAt stage req conn k h1 h2 h3 h4 hk
  have hconn : (getOrders stage req conn (some k)).conn = conn := by
    rw [hfail]
    cases conn
    simp_all
  refine ⟨⟨hconn, by rw [hfail]⟩, ?_⟩
  rw [hconn, getOrders_valid_none stage req conn h1 h2 h3 h4, syncSuccess_eq]

/-- Witness for C5: the first INSERT of the fixture cycle fails; the store
still holds only the pre-existing record, and the retry stores the fixture
selection. -/
theorem sync_atomic_rollback_witness :
    (jsTruthyStr exReq.source_chain = true ∧ jsTruthyStr exReq.destination_chain = true ∧
      jsTruthyStr exReq.start_time = true ∧ jsTruthyStr exReq.end_time = true ∧
      (⟨[exOld], none⟩ : PgConn).pending = none ∧
      0 < (stageQuery exStage (exReq.source_chain.getD "") (exReq.destination_chain.getD "")
        (exReq.start_time.getD "") (exReq.end_time.getD "")).length) ∧
    (((getOrders exStage exReq ⟨[exOld], none⟩ (some 0)).conn = ⟨[exOld], none⟩ ∧
      (getOrders exStage exReq ⟨[exOld], none⟩ (some 0)).status = 500) ∧
    (getOrders exStage exReq
        (getOrders exStage exReq ⟨[exOld], none⟩ (some 0)).conn none).conn.committed =
      (stageQuery exStage (exReq.source_chain.getD "") (exReq.destination_chain.getD "")
        (exReq.start_time.getD "") (exReq.end_time.getD "")).map insertRow) :=
  ⟨⟨by decide, by decide, by decide, by decide, rfl, by decide⟩,
    sync_atomic_rollback exStage exReq ⟨[exOld], none⟩ 0
      (by decide) (by decide) (by decide) (by decide) rfl (by decide)⟩

/-- Witness for C4 at the fixture store: the redeem-completed source leg and
refund-completed destination leg make the order selected, exactly once. -/
theorem sync_completion_gating_witness :
    (exCo ∈ exStage.create_orders ∧ exMo ∈ exStage.matched_orders ∧
      exMo.create_order_id = exCo.create_id ∧
      exS1 ∈ exStage.swaps ∧ exS1.swap_id = exMo.source_swap_id ∧
      exS2 ∈ exStage.swaps ∧ exS2.swap_id = exMo.destination_swap_id ∧
      (∀ s ∈ exStage.swaps, s.swap_id = exMo.source_swap_id → s = exS1) ∧
      (∀ s ∈ exStage.swaps, s.swap_id = exMo.destination_swap_id → s = exS2) ∧
      exCo.source_chain = "chainA" ∧ exCo.destination_chain = "chainB" ∧
      strLe "2023-12-31 00:00:00+00" exCo.created_at = true ∧
      strLe exCo.created_at "2024-01-02 00:00:00+00" = true) ∧
    (((⟨exMo.create_order_id, exMo.source_swap_id, exMo.destination_swap_id, exCo.created_at⟩ :
          StageRow) ∈
        stageQuery exStage "chainA" "chainB" "2023-12-31 00:00:00+00" "2024-01-02 00:00:00+00" ↔
      (legCompleted exS1 = true ∧ legCompleted exS2 = true)) ∧
    (legCompleted exS1 = true → legCompleted exS2 = true →
      (stageQuery exStage "chainA" "chainB" "2023-12-31 00:00:00+00"
          "2024-01-02 00:00:00+00").count
        ⟨exMo.create_order_id, exMo.source_swap_id, exMo.destination_swap_id,
          exCo.created_at⟩ = 1)) :=
  ⟨⟨by decide, by decide, by decide, by decide, by decide, by decide, by decide, by decide,
      by decide, by decide, by decide, by decide, by decide⟩,
    sync_completion_gating exStage "chainA" "chainB" "2023-12-31 00:00:00+00"
      "2024-01-02 00:00:00+00" exCo exMo exS1 exS2 (by decide) (by decide) (by decide)
      (by decide) (by decide) (by decide) (by decide) (by decide) (by decide) (by decide)
      (by decide) (by decide) (by decide)⟩

/-- C10: for every chain and every RPC oracle, `getTimestampForBlock`
returns null with zero network attempts when the block number argument is
absent or `0` (JavaScript-falsy); in particular a genuine block number 0 is
never resolved, even on a supported chain. -/
theorem resolver_falsy_block_guard :
    ∀ (rpc : String → Nat → Except String (Option Nat)) (chain : String),
      getTimestampForBlock rpc chain none = (none, 0) ∧
      getTimestampForBlock rpc chain (some 0) = (none, 0) ∧
      getTimestampForBlock rpc "ethereum_sepolia" (some 0) = (none, 0) := by
  intro rpc chain
  refine ⟨?_, ?_, ?_⟩ <;> simp [getTimestampForBlock, jsTruthyNat]

/-- C9: every computed milestone duration is clamped non-negative; a record
whose user-init timestamp precedes its creation time by 5 seconds yields a
computed user-init duration of 0, not a negative value; and a null endpoint
excludes the pair from its average instead of contributing a default. -/
theorem duration_clamping (r : QueryRecord) (T : Int) (e s : Int) (xs : List (Option Int))
    (hT : r.created_at = T) (hu : r.user_init = some (T - 5)) :
    (0 ≤ clampDuration e s ∧ pairDuration (some e) (some s) = some (clampDuration e s)) ∧
    userInitDuration r = some 0 ∧
    (∀ q : QueryRecord, q.user_init = none → userInitDuration q = none) ∧
    avgDuration (none :: xs) = avgDuration xs := by
  refine ⟨⟨le_max_right _ _, rfl⟩, ?_, ?_, ?_⟩
  · simp only [userInitDuration, hu, hT, pairDuration, clampDuration]
    norm_num
  · intro q hq
    simp [userInitDuration, hq, pairDuration]
  · simp [avgDuration]

/-- C6: every chain variant of the resolver absorbs a thrown RPC error into
a null result rather than propagating it; an unsupported chain always
yields null with zero network attempts; the backfill loop treats records
independently (processing a record is unaffected by its siblings); and
when the user-side chain errors while the counterparty-side chain resolves,
both resolutions are attempted on the same pass and the counterparty field
is still patched while the failed side stays null. -/
theorem resolver_fault_isolation :
    (∀ (rpc : String → Nat → Except String (Option Nat)) (chain : String) (bn : Nat)
        (e : String), rpc chain bn = Except.error e →
        (getTimestampForBlock rpc chain (some bn)).1 = none) ∧
    (∀ (rpc : String → Nat → Except String (Option Nat)) (chain : String)
        (blockNumber : Option Nat), alchemyChains.contains chain = false →
        chain ≠ "starknet_sepolia" → chain ≠ "monad_testnet" →
        chain ≠ "hyperliquid_testnet" →
        getTimestampForBlock rpc chain blockNumber = (none, 0)) ∧
    (∀ (rpc : String → Nat → Except String (Option Nat)) (db1 db2 : List OARow) (row : OARow),
        updateTimestamps rpc (db1 ++ row :: db2) =
          updateTimestamps rpc db1 ++ updateTimestamps rpc [row] ++ updateTimestamps rpc db2) ∧
    (∀ (rpc : String → Nat → Except String (Option Nat)) (row : OARow) (e : String)
        (ub cb t : Nat), row.user_init = none → row.cobi_init = none →
        row.user_init_block_number = some ub → row.cobi_init_block_number = some cb →
        cb ≠ 0 → rpc row.source_chain ub = Except.error e →
        alchemyChains.contains row.destination_chain = true →
        rpc row.destination_chain cb = Except.ok (some t) → t ≠ 0 →
        (backfillRow rpc row).user_init = none ∧
        (backfillRow rpc row).cobi_init = some (formatTimestampToIST t)) := by
  refine ⟨getTimestampForBlock_err, ?_, ?_, ?_⟩
  · intro rpc chain blockNumber hns hn1 hn2 hn3
    unfold getTimestampForBlock
    split_ifs <;> simp_all
  · intro rpc db1 db2 row
    simp [updateTimestamps]
  · intro rpc row e ub cb t hui hci hub hcb hcbne herr hsup hok htne
    have huT : resolveInit rpc row.source_chain row.user_init_block_number = none := by
      rw [hub]
      exact resolveInit_none_of_ts_none rpc _ _ (getTimestampForBlock_err rpc _ ub e herr)
    have hcT : resolveInit rpc row.destination_chain row.cobi_init_block_number =
        some (formatTimestampToIST t) := by
      rw [hcb]
      exact resolveInit_some_of_ts rpc _ _ t (by simp [jsTruthyNat, hcbne])
        (getTimestampForBlock_ok rpc _ cb t hcbne hsup hok htne) htne
    have hrow : backfillRow rpc row = backfillStep rpc row := by
      rw [backfillRow, if_pos (by simp [hui])]
    rw [hrow, backfillStep_resolved rpc row none (some (formatTimestampToIST t)) huT hcT
      (by simp)]
    exact ⟨by simp [hui, coalesce_none], by simp [hci, coalesce_none]⟩

/-- Witness for C6: running the step on the fixture row with the
half-failing oracle leaves the user side null and patches the counterparty
side with the resolved timestamp. -/
theorem resolver_fault_isolation_witness :
    exRpc "chainA" 100 = Except.error "network" ∧
    alchemyChains.contains "ethereum_sepolia" = true ∧
    exRpc "ethereum_sepolia" 200 = Except.ok (some 1704067500) ∧
    ((backfillRow exRpc exBRow).user_init = none ∧
      (backfillRow exRpc exBRow).cobi_init = some (formatTimestampToIST 1704067500)) :=
  ⟨rfl, by decide, rfl,
    resolver_fault_isolation.2.2.2 exRpc exBRow "network" 100 200 1704067500
      rfl rfl rfl rfl (by decide) rfl (by decide) rfl (by decide)⟩

/-- C7: the backfill never clobbers — a non-null init column of any row
survives a backfill run with its value unchanged, whatever the resolver
would return; the whole job is idempotent (a second run over the result of
a first run changes nothing); and a null user-init column whose block
number resolves is populated with the formatted resolved timestamp by the
run. -/
theorem backfill_nonclobber_idempotent :
    (∀ (rpc : String → Nat → Except String (Option Nat)) (db : List OARow) (i : Nat)
        (row : OARow), db[i]? = some row →
        ∃ row2, (updateTimestamps rpc db)[i]? = some row2 ∧
          (∀ v, row.user_init = some v → row2.user_init = some v) ∧
          (∀ v, row.cobi_init = some v → row2.cobi_init = some v)) ∧
    (∀ (rpc : String → Nat → Except String (Option Nat)) (db : List OARow),
        updateTimestamps rpc (updateTimestamps rpc db) = updateTimestamps rpc db) ∧
    (∀ (rpc : String → Nat → Except String (Option Nat)) (db : List OARow) (i : Nat)
        (row : OARow) (ub t : Nat), db[i]? = some row → row.user_init = none →
        row.user_init_block_number = some ub → ub ≠ 0 →
        alchemyChains.contains row.source_chain = true →
        rpc row.source_chain ub = Except.ok (some t) → t ≠ 0 →
        (updateTimestamps rpc db)[i]? = some (backfillRow rpc row) ∧
        (backfillRow rpc row).user_init = some (formatTimestampToIST t)) := by
  refine ⟨?_, ?_, ?_⟩
  · intro rpc db i row h
    exact ⟨backfillRow rpc row, by rw [updateTimestamps, List.getElem?_map, h]; rfl,
      fun v hv => backfillRow_user_some rpc row v hv,
      fun v hv => backfillRow_cobi_some rpc row v hv⟩
  · intro rpc db
    simp only [updateTimestamps, List.map_map]
    exact List.map_congr_left fun row _ => backfillRow_idem rpc row
  · intro rpc db i row ub t hget hui hub hubne hsup hok htne
    have hres : resolveInit rpc row.source_chain row.user_init_block_number =
        some (formatTimestampToIST t) := by
      rw [hub]
      exact resolveInit_some_of_ts rpc _ _ t (by simp [jsTruthyNat, hubne])
        (getTimestampForBlock_ok rpc _ ub t hubne hsup hok htne) htne
    refine ⟨by rw [updateTimestamps, List.getElem?_map, hget]; rfl, ?_⟩
    rw [backfillRow, if_pos (by simp [hui]),
      backfillStep_resolved rpc row (some (formatTimestampToIST t))
        (resolveInit rpc row.destination_chain row.cobi_init_block_number) hres rfl (by simp)]
    simp [hui, coalesce_none]

/-- Witness for C7: a one-row table with a non-null counterparty init value
keeps it unchanged, and the null user init resolves and is populated. -/
theorem backfill_nonclobber_idempotent_witness :
    ([⟨1, "ethereum_sepolia", "chainB", some 100, none, none, some "keep"⟩] :
        List OARow)[0]? = some ⟨1, "ethereum_sepolia", "chainB", some 100, none, none, some "keep"⟩ ∧
    (⟨1, "ethereum_sepolia", "chainB", some 100, none, none, some "keep"⟩ : OARow).user_init =
      none ∧
    alchemyChains.contains "ethereum_sepolia" = true ∧
    exRpc "ethereum_sepolia" 100 = Except.ok (some 1704067500) ∧
    ((updateTimestamps exRpc
        [⟨1, "ethereum_sepolia", "chainB", some 100, none, none, some "keep"⟩])[0]? =
      some (backfillRow exRpc
        ⟨1, "ethereum_sepolia", "chainB", some 100, none, none, some "keep"⟩) ∧
    (backfillRow exRpc ⟨1, "ethereum_sepolia", "chainB", some 100, none, none, some "keep"⟩
        ).user_init = some (formatTimestampToIST 1704067500)) :=
  ⟨rfl, rfl, by decide, rfl,
    backfill_nonclobber_idempotent.2.2 exRpc
      [⟨1, "ethereum_sepolia", "chainB", some 100, none, none, some "keep"⟩] 0
      ⟨1, "ethereum_sepolia", "chainB", some 100, none, none, some "keep"⟩ 100 1704067500
      rfl rfl rfl (by decide) (by decide) rfl (by decide)⟩

/-- C8 counterexample: a well-formed request whose filters match zero rows
is answered with HTTP 200 and a success message reporting zero stored
records — not with a distinct not-found-style response. -/
theorem no_data_is_success_cx :
    stageQuery exStage "chainX" "chainY" "2023-12-31 00:00:00+00" "2024-01-02 00:00:00+00"
      = [] ∧
    (getOrders exStage ⟨some "chainX", some "chainY", some "2023-12-31 00:00:00+00",
        some "2024-01-02 00:00:00+00"⟩ ⟨[], none⟩ none).status = 200 ∧
    (getOrders exStage ⟨some "chainX", some "chainY", some "2023-12-31 00:00:00+00",
        some "2024-01-02 00:00:00+00"⟩ ⟨[], none⟩ none).body =
      "Successfully stored 0 records in the database" ∧
    (getOrders exStage ⟨some "chainX", some "chainY", some "2023-12-31 00:00:00+00",
        some "2024-01-02 00:00:00+00"⟩ ⟨[], none⟩ none).status ≠ 404 := by
  refine ⟨by decide, by decide, by decide, by decide⟩

/-- C8 amended: a request with a missing (or empty) required field is
rejected with the 400 validation response before any database command runs;
a well-formed request matching zero rows is answered 200 with a success
message reporting zero stored records (and an emptied store), which is
distinguishable from the validation error by status, though it is a
success report rather than a not-found response. -/
theorem http_boundary_amended :
    (∀ (stage : StageDB) (req : OrderRequestBody) (conn : PgConn) (failAt : Option Nat),
        jsTruthyStr req.end_time = false →
        getOrders stage req conn failAt = ⟨conn, 400, "All fields are required", 0, []⟩) ∧
    (∀ (stage : StageDB) (req : OrderRequestBody) (conn : PgConn),
        jsTruthyStr req.source_chain = true → jsTruthyStr req.destination_chain = true →
        jsTruthyStr req.start_time = true → jsTruthyStr req.end_time = true →
        stageQuery stage (req.source_chain.getD "") (req.destination_chain.getD "")
          (req.start_time.getD "") (req.end_time.getD "") = [] →
        (getOrders stage req conn none).status = 200 ∧
        (getOrders stage req conn none).body =
          "Successfully stored 0 records in the database" ∧
        (getOrders stage req conn none).conn.committed = []) ∧
    (400 : Nat) ≠ 200 := by
  refine ⟨?_, ?_, by decide⟩
  · intro stage req conn failAt hmiss
    unfold getOrders
    rw [if_pos (by simp [hmiss])]
  · intro stage req conn h1 h2 h3 h4 hempty
    rw [getOrders_valid_none stage req conn h1 h2 h3 h4, syncSuccess_eq, hempty]
    exact ⟨rfl, rfl, rfl⟩

/-- Witness for C8 amended: a request missing end_time is rejected with 400
and zero database commands; the zero-match fixture request gets the
200 success report. -/
theorem http_boundary_amended_witness :
    jsTruthyStr (none : Option String) = false ∧
    (getOrders exStage ⟨some "chainA", some "chainB", some "2023-12-31 00:00:00+00", none⟩
        ⟨[exOld], none⟩ none =
      ⟨⟨[exOld], none⟩, 400, "All fields are required", 0, []⟩) ∧
    ((getOrders exStage ⟨some "chainX", some "chainY", some "2023-12-31 00:00:00+00",
        some "2024-01-02 00:00:00+00"⟩ ⟨[exOld], none⟩ none).status = 200 ∧
      (getOrders exStage ⟨some "chainX", some "chainY", some "2023-12-31 00:00:00+00",
        some "2024-01-02 00:00:00+00"⟩ ⟨[exOld], none⟩ none).body =
        "Successfully stored 0 records in the database" ∧
      (getOrders exStage ⟨some "chainX", some "chainY", some "2023-12-31 00:00:00+00",
        some "2024-01-02 00:00:00+00"⟩ ⟨[exOld], none⟩ none).conn.committed = []) :=
  ⟨rfl,
    http_boundary_amended.1 exStage
      ⟨some "chainA", some "chainB", some "2023-12-31 00:00:00+00", none⟩
      ⟨[exOld], none⟩ none rfl,
    http_boundary_amended.2.1 exStage
      ⟨some "chainX", some "chainY", some "2023-12-31 00:00:00+00",
        some "2024-01-02 00:00:00+00"⟩
      ⟨[exOld], none⟩ (by decide) (by decide) (by decide) (by decide) (by decide)⟩

/-- Witness for C9 at a concrete record with creation time 100 and user-init
at 95 (negative raw delta). -/
theorem duration_clamping_witness :
    (⟨100, some 95, none, none, none, none, none⟩ : QueryRecord).created_at = 100 ∧
    (⟨100, some 95, none, none, none, none, none⟩ : QueryRecord).user_init = some (100 - 5) ∧
    ((0 ≤ clampDuration 3 7 ∧
        pairDuration (some 3) (some 7) = some (clampDuration 3 7)) ∧
      userInitDuration ⟨100, some 95, none, none, none, none, none⟩ = some 0 ∧
      (∀ q : QueryRecord, q.user_init = none → userInitDuration q = none) ∧
      avgDuration (none :: [some 4]) = avgDuration [some 4]) :=
  ⟨rfl, by norm_num,
    duration_clamping ⟨100, some 95, none, none, none, none, none⟩ 100 3 7 [some 4] rfl
      (by norm_num)⟩

end Garden
